import Mathlib

/-!
Verification of the LogBox log-capture-and-classification core
(`Libraries/LogBox/LogBox.js`, development build branch).

The development proceeds in two parts:

* a shallow embedding of the two classifier entry points `registerWarning`
  and `registerError` as pure functions from a diagnostic call (a list of
  JavaScript arguments) and an environment of external collaborators
  (`LogBoxData`, the log parser) to the list of externally visible effects
  they perform, in order;

* a state machine for the installer (`install` / `uninstall` / `addLog` /
  `addException`), whose state records the global `console.error` /
  `console.warn` slots, the captured original entry points, the active
  implementation pointers, the `disableYellowBox` / `disableLogBox`
  console properties and the downstream disabled flag, and whose steps
  additionally emit a trace of external effects.
-/

namespace LogBoxSpec

/-- A JavaScript value passed as an argument of a diagnostic call.
We distinguish strings (the only case the classifier inspects), the
`undefined` value (what `args[0]` evaluates to for an empty call), and
opaque non-string objects. -/
inductive Arg
  | str (s : String)
  | undefinedVal
  | obj (id : Nat)
deriving DecidableEq, Repr

/-- JavaScript `String(x)` conversion, as applied by `registerWarning` to
`args[0]`. -/
def jsString : Arg → String
  | .str s => s
  | .undefinedVal => "undefined"
  | .obj _ => "[object Object]"

/-- `args[0]` of a variadic JavaScript call: `undefined` when no argument
was passed. -/
def arg0 (args : List Arg) : Arg :=
  args.headD .undefinedVal

/-- `pat` is a prefix of the character list `s` (JavaScript
`s.startsWith(pat)` over the underlying characters). -/
def beginsWith : List Char → List Char → Bool
  | [], _ => true
  | _ :: _, [] => false
  | p :: ps, c :: cs => p == c && beginsWith ps cs

/-- JavaScript `s.startsWith(p)`. -/
def jsStartsWith (s p : String) : Bool :=
  beginsWith p.data s.data

/-- Replace the leftmost occurrence of `pat` in `s` by `repl`; no change
when `pat` does not occur (JavaScript `String.prototype.replace` with a
string pattern). -/
def replaceFirstChars (pat repl : List Char) : List Char → List Char
  | [] => if beginsWith pat [] then repl else []
  | c :: cs =>
    if beginsWith pat (c :: cs) then repl ++ (c :: cs).drop pat.length
    else c :: replaceFirstChars pat repl cs

/-- JavaScript `s.replace(pat, repl)` for a string pattern: replaces only
the first occurrence. -/
def jsReplaceFirst (s pat repl : String) : String :=
  ⟨replaceFirstChars pat.data repl.data s.data⟩

/-- The `message` field of a parsed log: content plus substitution
payload (opaque here). -/
structure Message where
  content : String
  substitutions : List String
deriving DecidableEq, Repr

/-- Result of `parseLogBoxLog(args)`: category, message and component
stack (the stack kept opaque as a list of frame descriptions). -/
structure ParseResult where
  category : String
  message : Message
  componentStack : List String
deriving DecidableEq, Repr

/-- Result of `parseInterpolation(args)`: only the `message` field is
consumed by `registerError`. -/
structure InterpResult where
  message : Message
deriving DecidableEq, Repr

/-- `FilterResult` produced by `LogBoxData.checkWarningFilter`. -/
structure FilterResult where
  suppressCompletely : Bool
  suppressDialog_LEGACY : Bool
  forceDialogImmediately : Bool
  finalFormat : String
deriving DecidableEq, Repr

/-- Severity level of a log record. -/
inductive Level
  | warn
  | error
  | fatal
deriving DecidableEq, Repr

/-- A normalized log record handed to `LogBoxData.addLog`. -/
structure LogData where
  level : Level
  category : String
  message : Message
  componentStack : List String
deriving DecidableEq, Repr

/-- A JavaScript exception value (opaque payload). -/
structure JSError where
  msg : String
deriving DecidableEq, Repr

/-- Externally visible effects of one classifier run, in order. -/
inductive Effect
  | consoleError (args : List Arg)
  | consoleWarn (args : List Arg)
  | addLog (log : LogData)
  | reportLogBoxError (e : JSError)
deriving DecidableEq, Repr

/-- External collaborators of the classifier: the `LogBoxData` store
queries and the two parsers. The parsers and the filter lookup may throw,
modelled with `Except`. -/
structure Env where
  isLogBoxErrorMessage : Arg → Bool
  isMessageIgnored : String → Bool
  checkWarningFilter : String → Except JSError FilterResult
  parseLogBoxLog : List Arg → Except JSError ParseResult
  parseInterpolation : List Arg → Except JSError InterpResult

/-- `isRCTLogAdviceWarning(...args)`: first argument is a string starting
with `"(ADVICE)"`. -/
def isRCTLogAdviceWarning (args : List Arg) : Bool :=
  match arg0 args with
  | .str s => jsStartsWith s "(ADVICE)"
  | _ => false

/-- `isWarningModuleWarning(...args)`: first argument is a string starting
with `"Warning: "`. -/
def isWarningModuleWarning (args : List Arg) : Bool :=
  match arg0 args with
  | .str s => jsStartsWith s "Warning: "
  | _ => false

/-- `args[0] = a` on a JavaScript array (the array is nonempty at every
use site; on an empty array assignment to index 0 appends). -/
def setArg0 (args : List Arg) (a : Arg) : List Arg :=
  match args with
  | [] => [a]
  | _ :: rest => a :: rest

/-- The `registerWarning` classifier: effects of one warning call.
Mirrors the source: self-reporting messages fall through to
`originalConsoleError`; inside the `try`, non-advice calls are parsed,
and non-ignored ones are passed to `originalConsoleWarn` and recorded;
a parse exception is caught and reported via `reportLogBoxError`. -/
def registerWarning (env : Env) (args : List Arg) : List Effect :=
  if env.isLogBoxErrorMessage (.str (jsString (arg0 args))) then
    [.consoleError args]
  else
    if !isRCTLogAdviceWarning args then
      match env.parseLogBoxLog args with
      | .error err => [.reportLogBoxError err]
      | .ok r =>
        if !env.isMessageIgnored r.message.content then
          [.consoleWarn args,
           .addLog { level := .warn, category := r.category,
                     message := r.message, componentStack := r.componentStack }]
        else []
    else []

/-- The `registerError` classifier: effects of one error call. Mirrors
the source: self-reporting messages and calls not carrying the
`"Warning: "` marker fall through to `originalConsoleError`; otherwise
the marker is stripped, the format string looked up in the warning
filter, the severity computed, the marker re-prepended, the call parsed,
and non-ignored messages are interpolated, emitted to
`originalConsoleError` and recorded; exceptions inside the `try` are
caught and reported via `reportLogBoxError`. -/
def registerError (env : Env) (args : List Arg) : List Effect :=
  if env.isLogBoxErrorMessage (arg0 args) then
    [.consoleError args]
  else
    if !isWarningModuleWarning args then
      [.consoleError args]
    else
      let format := jsReplaceFirst (jsString (arg0 args)) "Warning: " ""
      match env.checkWarningFilter format with
      | .error err => [.reportLogBoxError err]
      | .ok filterResult =>
        if filterResult.suppressCompletely then []
        else
          let level : Level :=
            if filterResult.suppressDialog_LEGACY = true then .warn
            else if filterResult.forceDialogImmediately = true then .fatal
            else .error
          let args1 := setArg0 args (.str ("Warning: " ++ filterResult.finalFormat))
          match env.parseLogBoxLog args1 with
          | .error err => [.reportLogBoxError err]
          | .ok r =>
            if !env.isMessageIgnored r.message.content then
              match env.parseInterpolation args1 with
              | .error err => [.reportLogBoxError err]
              | .ok interpolated =>
                [.consoleError [.str interpolated.message.content],
                 .addLog { level := level, category := r.category,
                           message := r.message, componentStack := r.componentStack }]
            else []

/-- A function value a `console` channel slot can hold: the native
entry points, or the two wrapper closures installed on first install
(which dispatch through `consoleErrorImpl` / `consoleWarnImpl`). -/
inductive FnVal
  | nativeError
  | nativeWarn
  | wrapperError
  | wrapperWarn
deriving DecidableEq, Repr

/-- What an active-implementation pointer can reference: one of the two
classifier functions, or a saved original entry point (restored by
`uninstall`). -/
inductive Impl
  | registerErrorImpl
  | registerWarningImpl
  | savedFn (f : FnVal)
deriving DecidableEq, Repr

/-- State of the `console.disableYellowBox` property: absent, a plain
data property left by user code, or the accessor `install` defines
(whose getter reads `LogBoxData.isDisabled()`). -/
inductive DYBProp
  | absent
  | plainVal (b : Option Bool)
  | accessor
deriving DecidableEq, Repr

/-- The view the installer has of the mutable world: the global console slots,
the module-level saved originals and active implementations, the
installed flag, the two console properties the module touches, and the
disabled flag of the downstream store (read back through the accessor). -/
structure LBState where
  consoleErrorSlot : FnVal
  consoleWarnSlot : FnVal
  originalConsoleError : Option FnVal
  originalConsoleWarn : Option FnVal
  consoleErrorImpl : Option Impl
  consoleWarnImpl : Option Impl
  isLogBoxInstalled : Bool
  disableYellowBox : DYBProp
  hasDisableLogBoxProp : Bool
  dataDisabled : Bool
deriving DecidableEq, Repr

/-- Per-process configuration: `Platform.isTesting`. -/
structure Config where
  isTesting : Bool
deriving DecidableEq, Repr

/-- Opaque `ExtendedExceptionData` payload. -/
structure ExceptionData where
  payload : String
deriving DecidableEq, Repr

/-- Externally visible effects of installer operations, in order. -/
inductive InstEffect
  | requireNativeLogBox
  | setDisabled (b : Bool)
  | consoleWarnCall (msg : String)
  | setWarningHandler
  | dataAddLog (log : LogData)
  | dataAddException (e : ExceptionData)
deriving DecidableEq, Repr

/-- The deprecation notice emitted when the legacy flag is in use. -/
def deprecationMessage : String :=
  "console.disableYellowBox has been deprecated and will be removed in a future release. Please use LogBox.ignoreAllLogs(value) instead."

/-- Reading `console.disableYellowBox`: `none` when absent (JavaScript
`undefined`), the stored value for a plain property, and
`LogBoxData.isDisabled()` through the accessor. -/
def readDisableYellowBox (s : LBState) : Option Bool :=
  match s.disableYellowBox with
  | .absent => none
  | .plainVal b => b
  | .accessor => some s.dataDisabled

/-- `LogBox.install()`. No-op when already installed; otherwise sets the
flag, captures the originals and installs the wrappers only on the first
install of the process, points the active implementations at the
classifiers, migrates a truthy legacy `disableYellowBox` value (with a
deprecation warning), replaces the property by an accessor, disables the
store under `Platform.isTesting`, and registers the RCTLog warning
handler. -/
def installStep (c : Config) (s : LBState) : LBState × List InstEffect :=
  if s.isLogBoxInstalled then (s, [])
  else
    let s1 := { s with isLogBoxInstalled := true }
    let s2 :=
      if s1.originalConsoleError = none then
        { s1 with
          originalConsoleError := some s1.consoleErrorSlot,
          originalConsoleWarn := some s1.consoleWarnSlot,
          consoleErrorSlot := .wrapperError,
          consoleWarnSlot := .wrapperWarn }
      else s1
    let s3 := { s2 with consoleErrorImpl := some .registerErrorImpl,
                        consoleWarnImpl := some .registerWarningImpl }
    -- the property read only depends on `disableYellowBox` and
    -- `dataDisabled`, which `s1`–`s3` do not touch
    let legacyFlagOn := readDisableYellowBox s = some true
    let s4 := if legacyFlagOn then { s3 with dataDisabled := true } else s3
    let s5 := { s4 with disableYellowBox := .accessor }
    let s6 := if c.isTesting then { s5 with dataDisabled := true } else s5
    (s6,
      [InstEffect.requireNativeLogBox]
      ++ (if legacyFlagOn then
            [InstEffect.setDisabled true, InstEffect.consoleWarnCall deprecationMessage]
          else [])
      ++ (if c.isTesting then [InstEffect.setDisabled true] else [])
      ++ [InstEffect.setWarningHandler])

/-- `LogBox.uninstall()`. No-op when not installed; otherwise clears the
flag, repoints both active implementations at the saved originals, and
executes `delete console.disableLogBox` — the console channel slots are
deliberately left untouched. -/
def uninstallStep (s : LBState) : LBState × List InstEffect :=
  if !s.isLogBoxInstalled then (s, [])
  else
    ({ s with
       isLogBoxInstalled := false,
       consoleErrorImpl := s.originalConsoleError.map Impl.savedFn,
       consoleWarnImpl := s.originalConsoleWarn.map Impl.savedFn,
       hasDisableLogBoxProp := false }, [])

/-- `LogBox.isInstalled()`. -/
def logBoxIsInstalled (s : LBState) : Bool :=
  s.isLogBoxInstalled

/-- `LogBox.addLog(log)`: forwards to `LogBoxData.addLog` only when
installed. -/
def logBoxAddLog (s : LBState) (log : LogData) : LBState × List InstEffect :=
  if s.isLogBoxInstalled then (s, [.dataAddLog log]) else (s, [])

/-- `LogBox.addException(err)`: forwards to `LogBoxData.addException`
only when installed. -/
def logBoxAddException (s : LBState) (e : ExceptionData) : LBState × List InstEffect :=
  if s.isLogBoxInstalled then (s, [.dataAddException e]) else (s, [])

/-- State at module load: native console entry points, nothing captured,
not installed, no properties defined by this module. The initial
`disableYellowBox` property and disabled flag are parameters of the
process, taken here as the defaults of a fresh environment. -/
def initialState : LBState :=
  { consoleErrorSlot := .nativeError
    consoleWarnSlot := .nativeWarn
    originalConsoleError := none
    originalConsoleWarn := none
    consoleErrorImpl := none
    consoleWarnImpl := none
    isLogBoxInstalled := false
    disableYellowBox := .absent
    hasDisableLogBoxProp := false
    dataDisabled := false }

/-- An install/uninstall operation in a process lifetime. -/
inductive Op
  | install
  | uninstall
deriving DecidableEq, Repr

/-- Run a sequence of install/uninstall operations, keeping the state. -/
def runOps (c : Config) : List Op → LBState → LBState
  | [], s => s
  | .install :: rest, s => runOps c rest (installStep c s).1
  | .uninstall :: rest, s => runOps c rest (uninstallStep s).1

/-! ### Concrete environments used to evaluate the classifier -/

/-- Self-reporting detector used by the concrete environments: strings
starting with `"LogBox"` count as the own messages of the component. -/
def selfReportDetect : Arg → Bool
  | .str s => jsStartsWith s "LogBox"
  | _ => false

/-- Parser used by the concrete environments: category `"cat"`, content
the string rendering of the first argument, empty component stack. -/
def plainParse (args : List Arg) : Except JSError ParseResult :=
  .ok { category := "cat"
        message := { content := jsString (arg0 args), substitutions := [] }
        componentStack := [] }

/-- Interpolating parser used by the concrete environments. -/
def plainInterp (args : List Arg) : Except JSError InterpResult :=
  .ok { message := { content := jsString (arg0 args), substitutions := [] } }

/-- A benign environment: nothing ignored, the warning filter passes the
format through with all flags off, parsers never throw. -/
def envPlain : Env :=
  { isLogBoxErrorMessage := selfReportDetect
    isMessageIgnored := fun _ => false
    checkWarningFilter := fun f =>
      .ok { suppressCompletely := false, suppressDialog_LEGACY := false
            forceDialogImmediately := false, finalFormat := f }
    parseLogBoxLog := plainParse
    parseInterpolation := plainInterp }

/-- Environment whose warning filter sets `suppressDialog_LEGACY` and
`forceDialogImmediately` simultaneously. -/
def envBothFlags : Env :=
  { envPlain with
    checkWarningFilter := fun f =>
      .ok { suppressCompletely := false, suppressDialog_LEGACY := true
            forceDialogImmediately := true, finalFormat := f } }

/-- Environment whose parsers throw. -/
def envParseThrow : Env :=
  { envPlain with
    parseLogBoxLog := fun _ => .error { msg := "parse failure" }
    parseInterpolation := fun _ => .error { msg := "interp failure" } }

/-- Environment whose warning-filter lookup throws. -/
def envFilterThrow : Env :=
  { envPlain with checkWarningFilter := fun _ => .error { msg := "filter failure" } }

/-- Environment whose interpolating parse throws (plain parse succeeds). -/
def envInterpThrow : Env :=
  { envPlain with parseInterpolation := fun _ => .error { msg := "interp failure" } }

/-- Environment in which every message content is ignored. -/
def envIgnoreAll : Env :=
  { envPlain with isMessageIgnored := fun _ => true }

/-! ### C1 -/

/-- Claim C1: the claim states that when the filter result carries both
`forceDialogImmediately` and `suppressDialog_LEGACY`, the emitted record
has level `fatal`. The code checks `suppressDialog_LEGACY` first and
never reaches the `forceDialogImmediately` branch, so the record is
emitted with level `warn` — contradicting the claim and the
"Do not downgrade" comment in the source. -/
theorem registerError_both_flags_yields_warn :
    registerError envBothFlags [Arg.str "Warning: X overflow"] =
      [Effect.consoleError [Arg.str "Warning: X overflow"],
       Effect.addLog { level := Level.warn, category := "cat"
                       message := { content := "Warning: X overflow", substitutions := [] }
                       componentStack := [] }] := by
  decide

/-! ### C2 -/

/-- Counterexample to claim C2: for a self-reporting warning call, the code
invokes `originalConsoleError`, not the original warn channel the claim
names. -/
theorem registerWarning_selfReport_counterexample :
    registerWarning envPlain [Arg.str "LogBox internal error", Arg.obj 0] =
      [Effect.consoleError [Arg.str "LogBox internal error", Arg.obj 0]] ∧
    Effect.consoleWarn [Arg.str "LogBox internal error", Arg.obj 0] ∉
      registerWarning envPlain [Arg.str "LogBox internal error", Arg.obj 0] := by
  decide

/-- Claim C2 (amended): a self-reporting warning call is passed through,
arguments unmodified, to the original *error* channel, and produces no
LogRecord. -/
theorem registerWarning_selfReport_passthrough (env : Env) (args : List Arg)
    (h : env.isLogBoxErrorMessage (.str (jsString (arg0 args))) = true) :
    registerWarning env args = [Effect.consoleError args] := by
  simp [registerWarning, h]

/-- Witness for the amended theorem of C2 at a concrete self-reporting call. -/
theorem registerWarning_selfReport_passthrough_witness :
    envPlain.isLogBoxErrorMessage (.str (jsString (arg0 [Arg.str "LogBox internal error"]))) = true ∧
    registerWarning envPlain [Arg.str "LogBox internal error"] =
      [Effect.consoleError [Arg.str "LogBox internal error"]] :=
  ⟨by decide, registerWarning_selfReport_passthrough envPlain [Arg.str "LogBox internal error"] (by decide)⟩

/-! ### C3 -/

/-- Counterexample to claim C3: for an advisory warning call, the code performs
no effect at all — in particular the original warn channel is not
invoked, contrary to the claim. -/
theorem registerWarning_advice_counterexample :
    registerWarning envPlain [Arg.str "(ADVICE) use smaller images"] = [] ∧
    Effect.consoleWarn [Arg.str "(ADVICE) use smaller images"] ∉
      registerWarning envPlain [Arg.str "(ADVICE) use smaller images"] := by
  decide

/-- Claim C3 (amended): a non-self-reporting warning call whose first argument
starts with `"(ADVICE)"` is dropped entirely: no LogRecord and no
pass-through to either original channel. -/
theorem registerWarning_advice_dropped (env : Env) (args : List Arg)
    (h1 : env.isLogBoxErrorMessage (.str (jsString (arg0 args))) = false)
    (h2 : isRCTLogAdviceWarning args = true) :
    registerWarning env args = [] := by
  simp [registerWarning, h1, h2]

/-- Witness for the amended theorem of C3 at a concrete advisory call. -/
theorem registerWarning_advice_dropped_witness :
    isRCTLogAdviceWarning [Arg.str "(ADVICE) check native logs"] = true ∧
    registerWarning envPlain [Arg.str "(ADVICE) check native logs"] = [] :=
  ⟨by decide, registerWarning_advice_dropped envPlain [Arg.str "(ADVICE) check native logs"]
    (by decide) (by decide)⟩

/-! ### C7 -/

/-- Claim C7: every throw site of the classification pipeline — the parse in
the warning channel; the filter lookup, the parse and the interpolating
re-parse in the error channel — is inside the `try`, so the exception is
caught and the only resulting effect is `reportLogBoxError err`: nothing
is propagated to the caller and no other effect has happened yet. -/
theorem classifier_exceptions_reported :
    (∀ (env : Env) (args : List Arg) (err : JSError),
       env.isLogBoxErrorMessage (.str (jsString (arg0 args))) = false →
       isRCTLogAdviceWarning args = false →
       env.parseLogBoxLog args = .error err →
       registerWarning env args = [Effect.reportLogBoxError err]) ∧
    (∀ (env : Env) (args : List Arg) (err : JSError),
       env.isLogBoxErrorMessage (arg0 args) = false →
       isWarningModuleWarning args = true →
       env.checkWarningFilter (jsReplaceFirst (jsString (arg0 args)) "Warning: " "") = .error err →
       registerError env args = [Effect.reportLogBoxError err]) ∧
    (∀ (env : Env) (args : List Arg) (err : JSError) (fr : FilterResult),
       env.isLogBoxErrorMessage (arg0 args) = false →
       isWarningModuleWarning args = true →
       env.checkWarningFilter (jsReplaceFirst (jsString (arg0 args)) "Warning: " "") = .ok fr →
       fr.suppressCompletely = false →
       env.parseLogBoxLog (setArg0 args (.str ("Warning: " ++ fr.finalFormat))) = .error err →
       registerError env args = [Effect.reportLogBoxError err]) ∧
    (∀ (env : Env) (args : List Arg) (err : JSError) (fr : FilterResult) (r : ParseResult),
       env.isLogBoxErrorMessage (arg0 args) = false →
       isWarningModuleWarning args = true →
       env.checkWarningFilter (jsReplaceFirst (jsString (arg0 args)) "Warning: " "") = .ok fr →
       fr.suppressCompletely = false →
       env.parseLogBoxLog (setArg0 args (.str ("Warning: " ++ fr.finalFormat))) = .ok r →
       env.isMessageIgnored r.message.content = false →
       env.parseInterpolation (setArg0 args (.str ("Warning: " ++ fr.finalFormat))) = .error err →
       registerError env args = [Effect.reportLogBoxError err]) := by
  refine ⟨?_, ?_, ?_, ?_⟩
  · intro env args err h1 h2 h3
    simp [registerWarning, h1, h2, h3]
  · intro env args err h1 h2 h3
    simp [registerError, h1, h2, h3]
  · intro env args err fr h1 h2 h3 h4 h5
    simp [registerError, h1, h2, h3, h4, h5]
  · intro env args err fr r h1 h2 h3 h4 h5 h6 h7
    simp [registerError, h1, h2, h3, h4, h5, h6, h7]

/-- Witness for C7 at concrete throwing environments: one instance per
throw site. -/
theorem classifier_exceptions_reported_witness :
    registerWarning envParseThrow [Arg.str "broken call"] =
      [Effect.reportLogBoxError { msg := "parse failure" }] ∧
    registerError envFilterThrow [Arg.str "Warning: w1"] =
      [Effect.reportLogBoxError { msg := "filter failure" }] ∧
    registerError envParseThrow [Arg.str "Warning: w2"] =
      [Effect.reportLogBoxError { msg := "parse failure" }] ∧
    registerError envInterpThrow [Arg.str "Warning: w3"] =
      [Effect.reportLogBoxError { msg := "interp failure" }] :=
  ⟨classifier_exceptions_reported.1 envParseThrow [Arg.str "broken call"]
      { msg := "parse failure" } (by rfl) (by rfl) (by rfl),
   classifier_exceptions_reported.2.1 envFilterThrow [Arg.str "Warning: w1"]
      { msg := "filter failure" } (by rfl) (by rfl) (by rfl),
   classifier_exceptions_reported.2.2.1 envParseThrow [Arg.str "Warning: w2"]
      { msg := "parse failure" }
      { suppressCompletely := false, suppressDialog_LEGACY := false
        forceDialogImmediately := false, finalFormat := "w2" }
      (by rfl) (by rfl) (by rfl) (by rfl) (by rfl),
   classifier_exceptions_reported.2.2.2 envInterpThrow [Arg.str "Warning: w3"]
      { msg := "interp failure" }
      { suppressCompletely := false, suppressDialog_LEGACY := false
        forceDialogImmediately := false, finalFormat := "w3" }
      { category := "cat", message := { content := "Warning: w3", substitutions := [] }
        componentStack := [] }
      (by rfl) (by rfl) (by rfl) (by rfl) (by rfl) (by rfl) (by rfl)⟩

/-! ### C10 -/

/-- Claim C10: an error call carrying the `"Warning: "` marker that is not
self-reporting, not completely suppressed by the filter, and whose
parsed message content is ignored, produces no effect at all: neither
the original error channel nor the downstream store is reached. -/
theorem registerError_ignored_message_dropped (env : Env) (args : List Arg)
    (fr : FilterResult) (r : ParseResult)
    (h1 : env.isLogBoxErrorMessage (arg0 args) = false)
    (h2 : isWarningModuleWarning args = true)
    (h3 : env.checkWarningFilter (jsReplaceFirst (jsString (arg0 args)) "Warning: " "") = .ok fr)
    (h4 : fr.suppressCompletely = false)
    (h5 : env.parseLogBoxLog (setArg0 args (.str ("Warning: " ++ fr.finalFormat))) = .ok r)
    (h6 : env.isMessageIgnored r.message.content = true) :
    registerError env args = [] := by
  simp [registerError, h1, h2, h3, h4, h5, h6]

/-- Witness for C10 at a concrete ignored error call. -/
theorem registerError_ignored_message_dropped_witness :
    envIgnoreAll.isMessageIgnored "Warning: noisy" = true ∧
    registerError envIgnoreAll [Arg.str "Warning: noisy"] = [] :=
  ⟨by decide,
   registerError_ignored_message_dropped envIgnoreAll [Arg.str "Warning: noisy"]
     { suppressCompletely := false, suppressDialog_LEGACY := false
       forceDialogImmediately := false, finalFormat := "noisy" }
     { category := "cat", message := { content := "Warning: noisy", substitutions := [] }
       componentStack := [] }
     (by rfl) (by rfl) (by rfl) (by rfl) (by rfl) (by rfl)⟩

/-! ### Installer invariants -/

/-- No install has happened yet: nothing captured, native entry points
on the console, not installed. -/
def FreshState (s : LBState) : Prop :=
  s.originalConsoleError = none ∧ s.originalConsoleWarn = none ∧
  s.consoleErrorSlot = FnVal.nativeError ∧ s.consoleWarnSlot = FnVal.nativeWarn ∧
  s.isLogBoxInstalled = false

/-- The first install has happened: the native entry points are saved in
the original slots and the wrappers sit on the console channels. -/
def CapturedState (s : LBState) : Prop :=
  s.originalConsoleError = some FnVal.nativeError ∧
  s.originalConsoleWarn = some FnVal.nativeWarn ∧
  s.consoleErrorSlot = FnVal.wrapperError ∧
  s.consoleWarnSlot = FnVal.wrapperWarn

/-- Explicit form of the state `installStep` computes. -/
theorem installStep_state (c : Config) (s : LBState) :
    (installStep c s).1 =
      if s.isLogBoxInstalled then s
      else
        { consoleErrorSlot :=
            if s.originalConsoleError = none then FnVal.wrapperError else s.consoleErrorSlot
          consoleWarnSlot :=
            if s.originalConsoleError = none then FnVal.wrapperWarn else s.consoleWarnSlot
          originalConsoleError :=
            if s.originalConsoleError = none then some s.consoleErrorSlot
            else s.originalConsoleError
          originalConsoleWarn :=
            if s.originalConsoleError = none then some s.consoleWarnSlot
            else s.originalConsoleWarn
          consoleErrorImpl := some Impl.registerErrorImpl
          consoleWarnImpl := some Impl.registerWarningImpl
          isLogBoxInstalled := true
          disableYellowBox := DYBProp.accessor
          hasDisableLogBoxProp := s.hasDisableLogBoxProp
          dataDisabled :=
            if c.isTesting then true
            else if readDisableYellowBox s = some true then true
            else s.dataDisabled } := by
  unfold installStep
  by_cases h1 : s.isLogBoxInstalled
  · simp [h1]
  · by_cases h2 : s.originalConsoleError = none <;>
      by_cases h3 : readDisableYellowBox s = some true <;>
        by_cases h4 : c.isTesting <;>
          simp [h1, h2, h3, h4]

/-- Explicit form of the state `uninstallStep` computes. -/
theorem uninstallStep_state (s : LBState) :
    (uninstallStep s).1 =
      if s.isLogBoxInstalled then
        { s with
          isLogBoxInstalled := false
          consoleErrorImpl := s.originalConsoleError.map Impl.savedFn
          consoleWarnImpl := s.originalConsoleWarn.map Impl.savedFn
          hasDisableLogBoxProp := false }
      else s := by
  unfold uninstallStep
  by_cases h : s.isLogBoxInstalled <;> simp [h]

theorem installStep_of_captured (c : Config) (s : LBState) (h : CapturedState s) :
    CapturedState (installStep c s).1 := by
  obtain ⟨h1, h2, h3, h4⟩ := h
  rw [installStep_state]
  by_cases hi : s.isLogBoxInstalled <;> simp [hi, CapturedState, h1, h2, h3, h4]

theorem uninstallStep_of_captured (s : LBState) (h : CapturedState s) :
    CapturedState (uninstallStep s).1 := by
  obtain ⟨h1, h2, h3, h4⟩ := h
  rw [uninstallStep_state]
  by_cases hi : s.isLogBoxInstalled <;> simp [hi, CapturedState, h1, h2, h3, h4]

theorem runOps_of_captured (c : Config) (ops : List Op) (s : LBState)
    (h : CapturedState s) : CapturedState (runOps c ops s) := by
  induction ops generalizing s with
  | nil => exact h
  | cons op rest ih =>
    cases op with
    | install => exact ih _ (installStep_of_captured c s h)
    | uninstall => exact ih _ (uninstallStep_of_captured s h)

theorem installStep_of_fresh (c : Config) (s : LBState) (h : FreshState s) :
    CapturedState (installStep c s).1 := by
  obtain ⟨h1, h2, h3, h4, h5⟩ := h
  rw [installStep_state]
  simp [CapturedState, h1, h3, h4, h5]

theorem uninstallStep_of_fresh (s : LBState) (h : FreshState s) :
    (uninstallStep s).1 = s := by
  unfold uninstallStep
  simp [h.2.2.2.2]

/-- From a fresh state, the saved originals and the console slots are
functions of whether an install occurred in the operation sequence. -/
theorem runOps_from_fresh (c : Config) (ops : List Op) (s : LBState)
    (h : FreshState s) :
    (runOps c ops s).originalConsoleError =
      (if Op.install ∈ ops then some FnVal.nativeError else none) ∧
    (runOps c ops s).originalConsoleWarn =
      (if Op.install ∈ ops then some FnVal.nativeWarn else none) ∧
    (runOps c ops s).consoleErrorSlot =
      (if Op.install ∈ ops then FnVal.wrapperError else FnVal.nativeError) ∧
    (runOps c ops s).consoleWarnSlot =
      (if Op.install ∈ ops then FnVal.wrapperWarn else FnVal.nativeWarn) := by
  induction ops generalizing s with
  | nil => simpa [runOps] using ⟨h.1, h.2.1, h.2.2.1, h.2.2.2.1⟩
  | cons op rest ih =>
    cases op with
    | install =>
      have hcap := runOps_of_captured c rest _ (installStep_of_fresh c s h)
      simpa [runOps, List.mem_cons] using ⟨hcap.1, hcap.2.1, hcap.2.2.1, hcap.2.2.2⟩
    | uninstall =>
      have := ih _ h
      simpa [runOps, uninstallStep_of_fresh s h, List.mem_cons] using this

/-- The initial module-load state is fresh. -/
theorem initialState_fresh : FreshState initialState := by
  refine ⟨rfl, rfl, rfl, rfl, rfl⟩

theorem installStep_installed (c : Config) (s : LBState) :
    (installStep c s).1.isLogBoxInstalled = true := by
  rw [installStep_state]
  by_cases hi : s.isLogBoxInstalled <;> simp [hi]

theorem uninstallStep_uninstalled (s : LBState) :
    (uninstallStep s).1.isLogBoxInstalled = false := by
  rw [uninstallStep_state]
  by_cases hi : s.isLogBoxInstalled <;> simp [hi]

/-! ### C4 -/

/-- The state after a first `install()` followed by `uninstall()` in a
non-testing process. -/
def afterInstallUninstall : LBState :=
  (uninstallStep (installStep { isTesting := false } initialState).1).1

/-- Claim C4: after `install(); uninstall()` the active implementations are
correctly repointed at the captured originals, but the legacy-flag
accessor `install` defined under `console.disableYellowBox` is still
present: `uninstall` deletes the differently named
`console.disableLogBox` instead, contradicting the claim that no
legacy-flag accessor remains. -/
theorem uninstall_leaves_disableYellowBox_accessor :
    afterInstallUninstall.isLogBoxInstalled = false ∧
    afterInstallUninstall.consoleErrorImpl = some (Impl.savedFn FnVal.nativeError) ∧
    afterInstallUninstall.consoleWarnImpl = some (Impl.savedFn FnVal.nativeWarn) ∧
    afterInstallUninstall.disableYellowBox = DYBProp.accessor ∧
    afterInstallUninstall.hasDisableLogBoxProp = false := by
  decide

/-! ### C5 -/

/-- Claim C5: over any sequence of install/uninstall operations from module
load, the original console entry points are captured exactly on the
first install — they are `none` until an install occurs and hold the
native entry points from then on, never re-captured (in particular they
still hold the natives even while wrappers occupy the console slots). -/
theorem originals_captured_exactly_once (c : Config) (ops : List Op) :
    (runOps c ops initialState).originalConsoleError =
      (if Op.install ∈ ops then some FnVal.nativeError else none) ∧
    (runOps c ops initialState).originalConsoleWarn =
      (if Op.install ∈ ops then some FnVal.nativeWarn else none) :=
  ⟨(runOps_from_fresh c ops initialState initialState_fresh).1,
   (runOps_from_fresh c ops initialState initialState_fresh).2.1⟩

/-! ### C6 -/

/-- Claim C6: `uninstall` never touches the global console channel slots — in
any state they are exactly what they were before — and once an install
has occurred the wrapper functions stay on the channels for ever; what
`uninstall` does change is the active-implementation pointers, repointed
at the saved originals. -/
theorem uninstall_never_restores_channels :
    (∀ s : LBState,
       (uninstallStep s).1.consoleErrorSlot = s.consoleErrorSlot ∧
       (uninstallStep s).1.consoleWarnSlot = s.consoleWarnSlot) ∧
    (∀ (c : Config) (ops : List Op), Op.install ∈ ops →
       (runOps c ops initialState).consoleErrorSlot = FnVal.wrapperError ∧
       (runOps c ops initialState).consoleWarnSlot = FnVal.wrapperWarn) ∧
    (∀ s : LBState, s.isLogBoxInstalled = true →
       (uninstallStep s).1.consoleErrorImpl = s.originalConsoleError.map Impl.savedFn ∧
       (uninstallStep s).1.consoleWarnImpl = s.originalConsoleWarn.map Impl.savedFn) := by
  refine ⟨?_, ?_, ?_⟩
  · intro s
    unfold uninstallStep
    by_cases hi : s.isLogBoxInstalled <;> simp [hi]
  · intro c ops hmem
    have h := runOps_from_fresh c ops initialState initialState_fresh
    exact ⟨by simpa [hmem] using h.2.2.1, by simpa [hmem] using h.2.2.2⟩
  · intro s hi
    unfold uninstallStep
    simp [hi]

/-- Witness for C6 at a concrete install/uninstall sequence and a
concrete installed state. -/
theorem uninstall_never_restores_channels_witness :
    Op.install ∈ [Op.install, Op.uninstall] ∧
    (runOps { isTesting := false } [Op.install, Op.uninstall] initialState).consoleErrorSlot =
      FnVal.wrapperError ∧
    (runOps { isTesting := false } [Op.install, Op.uninstall] initialState).consoleWarnSlot =
      FnVal.wrapperWarn ∧
    (uninstallStep (installStep { isTesting := false } initialState).1).1.consoleErrorImpl =
      (installStep { isTesting := false } initialState).1.originalConsoleError.map Impl.savedFn :=
  ⟨by decide,
   (uninstall_never_restores_channels.2.1 { isTesting := false }
      [Op.install, Op.uninstall] (by decide)).1,
   (uninstall_never_restores_channels.2.1 { isTesting := false }
      [Op.install, Op.uninstall] (by decide)).2,
   (uninstall_never_restores_channels.2.2
      (installStep { isTesting := false } initialState).1 (by decide)).1⟩

/-! ### C8 -/

/-- Claim C8: `install` and `uninstall` are idempotent from any state: the
second consecutive call leaves the state exactly as the first left it
and performs no external effect. -/
theorem install_uninstall_idempotent (c : Config) (s : LBState) :
    installStep c (installStep c s).1 = ((installStep c s).1, ([] : List InstEffect)) ∧
    uninstallStep (uninstallStep s).1 = ((uninstallStep s).1, ([] : List InstEffect)) := by
  constructor
  · rw [installStep.eq_def]
    simp [installStep_installed c s]
  · rw [uninstallStep.eq_def]
    simp [uninstallStep_uninstalled s]

/-! ### C9 -/

/-- Claim C9: `addLog` and `addException` never change the state; while
uninstalled they perform no call into the downstream store, and while
installed they forward the record to the store exactly once. -/
theorem addLog_addException_installed_gate (s : LBState) (log : LogData)
    (e : ExceptionData) :
    logBoxAddLog s log =
      (s, if s.isLogBoxInstalled then [InstEffect.dataAddLog log] else []) ∧
    logBoxAddException s e =
      (s, if s.isLogBoxInstalled then [InstEffect.dataAddException e] else []) ∧
    (logBoxAddLog s log).2.count (InstEffect.dataAddLog log) =
      (if s.isLogBoxInstalled then 1 else 0) ∧
    (logBoxAddException s e).2.count (InstEffect.dataAddException e) =
      (if s.isLogBoxInstalled then 1 else 0) := by
  by_cases hi : s.isLogBoxInstalled <;>
    simp [logBoxAddLog, logBoxAddException, hi]

end LogBoxSpec
